import Mathlib

/-!
# Verification of the typhoon-rebirth regime-switching trading bot core

Shallow embedding of the decision core of the repository:

* `src/src/watchman.py` — ADX-based market regime detector with hysteresis
  and cooldown (`Watchman`);
* `src/src/strategies/mean_reversion.py` — `MeanReversionStrategy`;
* `src/src/strategies/trend_follower.py` — `TrendSniperStrategy`;
* `src/main.py` — `TradingBot._manage_position` / `run_iteration`;
* `src/src/database.py` — `close_trade` PnL computation.

Modelling conventions:

* Python floats are modelled as `ℚ`; a float slot that can hold NaN
  (a pandas indicator column before warm-up) is modelled as `Option ℚ`,
  with `none` playing the role of NaN.  Comparisons against a possibly-NaN
  column use the `ltNA`/`gtNA`/`leNA`/`geNA` helpers, which are `false`
  on `none`, exactly as every float comparison against NaN is `False`
  in Python.
* A pandas `DataFrame` is modelled as a `List` of row structures.  Columns
  that the embedded code computes itself from raw OHLC data (the Donchian
  channels, via rolling max/min) are computed inside the embedding;
  columns produced by opaque `pandas_ta` numerics (ADX, RSI, Bollinger
  bands, SMA, ATR, EMA) are modelled as already-materialised `Option ℚ`
  fields of the row, since every claim depends only on the value at the
  last row and on its definedness, never on the numeric recurrence.
* `datetime.utcnow()` is modelled by threading an explicit `now : ℚ`
  (seconds) through the functions that read the clock.
* Formatted log/reason strings are replaced by their constant prefix;
  no claim inspects a non-empty reason string.
-/

/-! ## Market regime and configuration (`src/src/watchman.py`, `src/src/config.py`) -/

/-- `MarketRegime` enum from `watchman.py`. -/
inductive MarketRegime where
  | RANGING
  | TRENDING
deriving DecidableEq, Repr

/-- `WatchmanConfig` from `config.py` (defaults: period 14, trend_start 25.0,
range_return 20.0, cooldown 900).  `cooldown_seconds` is an `int` in the
source; it is kept as `ℚ` here because it is only ever used inside
`timedelta` arithmetic. -/
structure WatchmanConfig where
  adx_period : ℕ
  adx_trend_start : ℚ
  adx_range_return : ℚ
  cooldown_seconds : ℚ
deriving DecidableEq, Repr

/-- Mutable state of a `Watchman` instance: `_current_regime`,
`_last_regime_change` (`None` until the first transition, then the clock
value at the transition) and `_last_adx_value` (initially `0.0`). -/
structure WatchmanState where
  current_regime : MarketRegime
  last_regime_change : Option ℚ
  last_adx_value : ℚ
deriving DecidableEq, Repr

/-- `Watchman.__init__`: regime `RANGING`, no last change, last ADX `0.0`. -/
def watchmanInit : WatchmanState :=
  { current_regime := MarketRegime.RANGING
    last_regime_change := none
    last_adx_value := 0 }

/-- The 1h OHLCV frame as seen by `Watchman.calculate_adx`: the code only
uses the number of candles (`len(df)`) and the ADX value of the last row
produced by `ta.adx` (`none` models NaN, i.e. the warm-up region). -/
structure AdxFrame where
  len : ℕ
  adx_last : Option ℚ
deriving DecidableEq, Repr

/-- `Watchman.calculate_adx`.  Returns the ADX value the caller will use
together with the updated state:
* fewer than `adx_period + 1` candles (which subsumes `df.empty`) — the
  source logs a warning and returns `0.0`, leaving `_last_adx_value` alone;
* ADX at the last row is NaN — returns the stored `_last_adx_value`;
* otherwise stores and returns the fresh value.
(The defensive branch for a missing `ADX_{period}` column, which also
returns `0.0`, cannot arise in the frame model and is not represented.) -/
def calculate_adx (cfg : WatchmanConfig) (st : WatchmanState) (df : AdxFrame) :
    ℚ × WatchmanState :=
  if df.len < cfg.adx_period + 1 then
    (0, st)
  else
    match df.adx_last with
    | none => (st.last_adx_value, st)
    | some v => (v, { st with last_adx_value := v })

/-- `Watchman.detect_regime`: hysteresis step.  Returns
`((current_regime, regime_changed), new state)`; `now` models
`datetime.utcnow()` at the moment of a transition. -/
def detect_regime (cfg : WatchmanConfig) (st : WatchmanState) (df : AdxFrame)
    (now : ℚ) : (MarketRegime × Bool) × WatchmanState :=
  let r := calculate_adx cfg st df
  let adx := r.1
  let st1 := r.2
  match st1.current_regime with
  | MarketRegime.RANGING =>
      if cfg.adx_trend_start < adx then
        ((MarketRegime.TRENDING, true),
         { st1 with current_regime := MarketRegime.TRENDING
                    last_regime_change := some now })
      else
        ((MarketRegime.RANGING, false), st1)
  | MarketRegime.TRENDING =>
      if adx < cfg.adx_range_return then
        ((MarketRegime.RANGING, true),
         { st1 with current_regime := MarketRegime.RANGING
                    last_regime_change := some now })
      else
        ((MarketRegime.TRENDING, false), st1)

/-- `Watchman.is_in_cooldown`: `False` while `_last_regime_change is None`,
otherwise `utcnow() < last_change + timedelta(seconds=cooldown_seconds)`. -/
def is_in_cooldown (cfg : WatchmanConfig) (st : WatchmanState) (now : ℚ) : Bool :=
  match st.last_regime_change with
  | none => false
  | some t => decide (now < t + cfg.cooldown_seconds)

/-- Python `int(·)` on a rational: truncation toward zero. -/
def py_int (q : ℚ) : ℤ :=
  if 0 ≤ q then ⌊q⌋ else -⌊-q⌋

/-- `Watchman.cooldown_remaining`: `0` when not in cooldown, otherwise
`max(0, int((cooldown_end - utcnow()).total_seconds()))`.  The `none`
branch of the inner match is unreachable (being in cooldown implies a
recorded last change). -/
def cooldown_remaining (cfg : WatchmanConfig) (st : WatchmanState) (now : ℚ) : ℤ :=
  if is_in_cooldown cfg st now then
    match st.last_regime_change with
    | none => 0
    | some t => max 0 (py_int (t + cfg.cooldown_seconds - now))
  else 0

/-! ## Shared strategy data model (`src/src/strategies/base_strategy.py`)

The file `base_strategy.py` itself is not in the source tree; only its
importers are.  The plain data classes it exports are reconstructed below. -/

/-- `SignalType` enum: trade direction of an entry signal. -/
inductive SignalType where
  | LONG
  | SHORT
deriving DecidableEq, Repr

/-- Modelled from the spec: `Signal` — "{direction: LONG|SHORT, entry_price,
stop_loss_price, human-readable reason, named indicator snapshot at signal
time}", created only by a strategy engine (`base_strategy.py` is absent from
the tree).  The indicator snapshot, used only for logging, is elided. -/
structure Signal where
  signal_type : SignalType
  entry_price : ℚ
  stop_loss : ℚ
  reason : String
deriving DecidableEq, Repr

/-- Modelled from the spec: `PositionInfo` — "{trade_id, symbol, side,
entry_price, size, current stop_loss}" (`base_strategy.py` is absent from the
tree).  `side` is the string `"LONG"`/`"SHORT"`, as the strategies compare it
with `position.side == 'LONG'` and `main.py` stores
`signal.signal_type.value` into it. -/
structure PositionInfo where
  trade_id : ℕ
  symbol : String
  side : String
  entry_price : ℚ
  size : ℚ
  stop_loss : ℚ
deriving DecidableEq, Repr

/-! ### NaN-aware float comparisons

In pandas/Python any `<`/`>`/`<=`/`>=` against NaN is `False`.  An
indicator column that can be NaN is an `Option ℚ`; these helpers compare a
defined float with such a column. -/

/-- `x < o` with NaN (`none`) compare-false semantics. -/
def ltNA (x : ℚ) (o : Option ℚ) : Bool :=
  match o with
  | some v => decide (x < v)
  | none => false

/-- `x > o` with NaN (`none`) compare-false semantics. -/
def gtNA (x : ℚ) (o : Option ℚ) : Bool :=
  match o with
  | some v => decide (v < x)
  | none => false

/-- `x <= o` with NaN (`none`) compare-false semantics. -/
def leNA (x : ℚ) (o : Option ℚ) : Bool :=
  match o with
  | some v => decide (x ≤ v)
  | none => false

/-- `x >= o` with NaN (`none`) compare-false semantics. -/
def geNA (x : ℚ) (o : Option ℚ) : Bool :=
  match o with
  | some v => decide (v ≤ x)
  | none => false

/-! ## Mean reversion strategy (`src/src/strategies/mean_reversion.py`) -/

/-- `MeanReversionConfig` from `config.py` (defaults: bb 20/2.0, rsi 14
with 30/70 cutoffs, atr 14, atr_sl_multiplier 1.5). -/
structure MeanReversionConfig where
  timeframe : String
  bb_period : ℕ
  bb_std_dev : ℚ
  rsi_period : ℕ
  rsi_oversold : ℚ
  rsi_overbought : ℚ
  atr_period : ℕ
  atr_sl_multiplier : ℚ
deriving DecidableEq, Repr

/-- One row of the frame produced by
`MeanReversionStrategy.calculate_indicators`: the raw close plus the
`pandas_ta` columns the decision code reads (`bb_lower`, `bb_upper`,
`rsi`, `sma`, `atr`), each `none` inside its warm-up region.  The raw
high/low/volume and the unused `bb_middle` column are not read by any
decision and are omitted. -/
structure MeanRow where
  close : ℚ
  rsi : Option ℚ
  bb_lower : Option ℚ
  bb_upper : Option ℚ
  sma : Option ℚ
  atr : Option ℚ
deriving DecidableEq, Repr

namespace MeanReversion

/-- `MeanReversionStrategy.calculate_stop_loss`:
* empty frame — fallback `entry_price * 0.98` (LONG) / `* 1.02` (SHORT);
* otherwise the last row's ATR (or `entry_price * 0.02` when that ATR is
  NaN) times `atr_sl_multiplier` subtracted from / added to the entry. -/
def calculate_stop_loss (cfg : MeanReversionConfig) (df : List MeanRow)
    (signal_type : SignalType) (entry_price : ℚ) : ℚ :=
  match df.getLast? with
  | none =>
      if signal_type = SignalType.LONG then entry_price * (98 / 100)
      else entry_price * (102 / 100)
  | some latest =>
      let atr : ℚ :=
        match latest.atr with
        | some a => a
        | none => entry_price * (2 / 100)
      let stop_distance := atr * cfg.atr_sl_multiplier
      if signal_type = SignalType.LONG then entry_price - stop_distance
      else entry_price + stop_distance

/-- `MeanReversionStrategy.check_entry_signal`: no signal on an empty frame
or NaN RSI; LONG on `close < bb_lower and rsi < rsi_oversold`, else SHORT
on `close > bb_upper and rsi > rsi_overbought`, else none. -/
def check_entry_signal (cfg : MeanReversionConfig) (df : List MeanRow) :
    Option Signal :=
  match df.getLast? with
  | none => none
  | some latest =>
      match latest.rsi with
      | none => none
      | some rsi =>
          if ltNA latest.close latest.bb_lower ∧ rsi < cfg.rsi_oversold then
            some { signal_type := SignalType.LONG
                   entry_price := latest.close
                   stop_loss := calculate_stop_loss cfg df SignalType.LONG latest.close
                   reason := "Oversold Condition" }
          else if gtNA latest.close latest.bb_upper ∧ cfg.rsi_overbought < rsi then
            some { signal_type := SignalType.SHORT
                   entry_price := latest.close
                   stop_loss := calculate_stop_loss cfg df SignalType.SHORT latest.close
                   reason := "Overbought Condition" }
          else none

/-- `MeanReversionStrategy.check_exit_signal`: `(False, "")` on an empty
frame; otherwise stop-loss breach first, then take-profit at the SMA. -/
def check_exit_signal (cfg : MeanReversionConfig) (df : List MeanRow)
    (position : PositionInfo) (current_price : ℚ) : Bool × String :=
  match df.getLast? with
  | none => (false, "")
  | some latest =>
      if position.side = "LONG" then
        if current_price ≤ position.stop_loss then (true, "Stop Loss Hit")
        else if geNA current_price latest.sma then (true, "Take Profit")
        else (false, "")
      else
        if position.stop_loss ≤ current_price then (true, "Stop Loss Hit")
        else if leNA current_price latest.sma then (true, "Take Profit")
        else (false, "")

end MeanReversion

/-! ## Trend sniper strategy (`src/src/strategies/trend_follower.py`) -/

/-- `TrendSniperConfig` from `config.py` (defaults: donchian 20, ema 200). -/
structure TrendSniperConfig where
  timeframe : String
  donchian_period : ℕ
  ema_period : ℕ
deriving DecidableEq, Repr

/-- One row of the trend strategy's frame: raw high/low/close plus the
`pandas_ta` EMA column (`none` in its warm-up region).  The Donchian
channels — plain rolling max/min that `calculate_indicators` derives with
`ta.donchian` — are computed from the raw rows by the functions below. -/
structure TrendBar where
  high : ℚ
  low : ℚ
  close : ℚ
  ema : Option ℚ
deriving DecidableEq, Repr

/-- The trailing window of length `p` ending at the last element. -/
def lastWindow {α : Type} (p : ℕ) (l : List α) : List α :=
  l.drop (l.length - p)

/-- `donchian_high` at the last row: rolling `max(high)` over window `p`
with `min_periods = p` (so NaN — `none` — when fewer than `p` rows). -/
def donchian_high_last (p : ℕ) (bars : List TrendBar) : Option ℚ :=
  if bars.length < p then none
  else ((lastWindow p bars).map TrendBar.high).max?

/-- `donchian_low` at the last row: rolling `min(low)` over window `p`
with `min_periods = p` (so NaN — `none` — when fewer than `p` rows). -/
def donchian_low_last (p : ℕ) (bars : List TrendBar) : Option ℚ :=
  if bars.length < p then none
  else ((lastWindow p bars).map TrendBar.low).min?

/-- `prev_donchian_high` at the last row (`shift(1)` in
`calculate_indicators`): the channel high of the window ending one bar
earlier. -/
def prev_donchian_high (p : ℕ) (bars : List TrendBar) : Option ℚ :=
  donchian_high_last p bars.dropLast

/-- `prev_donchian_low` at the last row (`shift(1)`). -/
def prev_donchian_low (p : ℕ) (bars : List TrendBar) : Option ℚ :=
  donchian_low_last p bars.dropLast

namespace TrendSniper

/-- `TrendSniperStrategy.calculate_stop_loss`: opposite Donchian band at
the last row, with a ±3% fallback when the frame is empty or the band is
NaN. -/
def calculate_stop_loss (cfg : TrendSniperConfig) (df : List TrendBar)
    (signal_type : SignalType) (entry_price : ℚ) : ℚ :=
  if df.isEmpty then
    if signal_type = SignalType.LONG then entry_price * (97 / 100)
    else entry_price * (103 / 100)
  else
    match signal_type with
    | SignalType.LONG =>
        match donchian_low_last cfg.donchian_period df with
        | some stop_loss => stop_loss
        | none => entry_price * (97 / 100)
    | SignalType.SHORT =>
        match donchian_high_last cfg.donchian_period df with
        | some stop_loss => stop_loss
        | none => entry_price * (103 / 100)

/-- `TrendSniperStrategy.check_entry_signal`: none when the frame is empty
or shorter than `ema_period + 1`, or when the EMA or the shifted channel
high is NaN at the last row; otherwise LONG on
`close > prev_donchian_high and close > ema`, else SHORT on
`close < prev_donchian_low and close < ema`, else none. -/
def check_entry_signal (cfg : TrendSniperConfig) (df : List TrendBar) :
    Option Signal :=
  if df.isEmpty ∨ df.length < cfg.ema_period + 1 then none
  else
    match df.getLast? with
    | none => none
    | some latest =>
        if latest.ema.isNone ∨ (prev_donchian_high cfg.donchian_period df).isNone then
          none
        else if gtNA latest.close (prev_donchian_high cfg.donchian_period df)
            ∧ gtNA latest.close latest.ema then
          some { signal_type := SignalType.LONG
                 entry_price := latest.close
                 stop_loss := calculate_stop_loss cfg df SignalType.LONG latest.close
                 reason := "Bullish Breakout" }
        else if ltNA latest.close (prev_donchian_low cfg.donchian_period df)
            ∧ ltNA latest.close latest.ema then
          some { signal_type := SignalType.SHORT
                 entry_price := latest.close
                 stop_loss := calculate_stop_loss cfg df SignalType.SHORT latest.close
                 reason := "Bearish Breakout" }
        else none

/-- `TrendSniperStrategy.check_exit_signal`: `(False, "")` on an empty
frame; LONG exits when `current_price <= donchian_low`, SHORT when
`current_price >= donchian_high` (NaN channel compares false). -/
def check_exit_signal (cfg : TrendSniperConfig) (df : List TrendBar)
    (position : PositionInfo) (current_price : ℚ) : Bool × String :=
  if df.isEmpty then (false, "")
  else if position.side = "LONG" then
    if leNA current_price (donchian_low_last cfg.donchian_period df) then
      (true, "Trailing Stop")
    else (false, "")
  else
    if geNA current_price (donchian_high_last cfg.donchian_period df) then
      (true, "Trailing Stop")
    else (false, "")

/-- `TrendSniperStrategy.update_trailing_stop`: the existing stop on an
empty frame or NaN channel; otherwise `max(donchian_low, stop)` for LONG
and `min(donchian_high, stop)` otherwise. -/
def update_trailing_stop (cfg : TrendSniperConfig) (df : List TrendBar)
    (position : PositionInfo) : ℚ :=
  if df.isEmpty then position.stop_loss
  else if position.side = "LONG" then
    match donchian_low_last cfg.donchian_period df with
    | some new_stop => max new_stop position.stop_loss
    | none => position.stop_loss
  else
    match donchian_high_last cfg.donchian_period df with
    | some new_stop => min new_stop position.stop_loss
    | none => position.stop_loss

end TrendSniper

/-! ## Coordinator (`src/main.py`) -/

/-- A strategy object as the coordinator sees it (dynamic dispatch on
`BaseStrategy`): `check_exit` / `check_entry` methods over that strategy's
own frame type `α`, plus `update_trail`, which is `some` exactly for the
`TrendSniperStrategy` instance (mirroring the
`isinstance(strategy, TrendSniperStrategy)` guard in `_manage_position`). -/
structure StrategyOps (α : Type) where
  check_exit : α → PositionInfo → ℚ → Bool × String
  check_entry : α → Option Signal
  update_trail : Option (α → PositionInfo → ℚ)

/-- Observable outcome of one `TradingBot._manage_position` call:
the position afterwards, the `stop_loss` of the `PositionInfo` handed to
`check_exit_signal` (`none` when no exit check ran), whether an exit was
executed, whether `update_trailing_stop` was called, and whether
`check_entry_signal` was called. -/
structure ManageResult where
  new_position : Option PositionInfo
  exit_check_stop : Option ℚ
  exited : Bool
  trail_called : Bool
  entry_checked : Bool
deriving DecidableEq, Repr

/-- `TradingBot._manage_position` for one strategy.  External collaborators
are parameters: `current_price` is the exchange ticker, `position_size` the
result of `calculate_position_size` for an eventual signal, `symbol` the
configured trading pair and `trade_id` the id of a freshly created trade
record; an order fill at `signal.entry_price` is assumed (dry-run fill).
Control flow mirrors the source: with a position, exit is checked first
(with the position as it stands, i.e. the pre-update stop) and the
trailing stop is recomputed only when no exit fired and only for the trend
strategy; without a position, entry is considered only when the strategy
is active and the watchman is not in cooldown, and a non-positive sizing
skips the entry. -/
def manage_position {α : Type} (ops : StrategyOps α) (in_cooldown : Bool)
    (pos : Option PositionInfo) (df : α) (current_price : ℚ)
    (is_active : Bool) (position_size : ℚ) (symbol : String)
    (trade_id : ℕ) : ManageResult :=
  match pos with
  | some position =>
      let res := ops.check_exit df position current_price
      if res.1 then
        { new_position := none
          exit_check_stop := some position.stop_loss
          exited := true
          trail_called := false
          entry_checked := false }
      else
        match ops.update_trail with
        | some f =>
            { new_position := some { position with stop_loss := f df position }
              exit_check_stop := some position.stop_loss
              exited := false
              trail_called := true
              entry_checked := false }
        | none =>
            { new_position := some position
              exit_check_stop := some position.stop_loss
              exited := false
              trail_called := false
              entry_checked := false }
  | none =>
      if is_active ∧ in_cooldown = false then
        match ops.check_entry df with
        | some signal =>
            if position_size ≤ 0 then
              { new_position := none
                exit_check_stop := none
                exited := false
                trail_called := false
                entry_checked := true }
            else
              { new_position := some
                  { trade_id := trade_id
                    symbol := symbol
                    side := (match signal.signal_type with
                             | SignalType.LONG => "LONG"
                             | SignalType.SHORT => "SHORT")
                    entry_price := signal.entry_price
                    size := position_size
                    stop_loss := signal.stop_loss }
                exit_check_stop := none
                exited := false
                trail_called := false
                entry_checked := true }
        | none =>
            { new_position := none
              exit_check_stop := none
              exited := false
              trail_called := false
              entry_checked := true }
      else
        { new_position := none
          exit_check_stop := none
          exited := false
          trail_called := false
          entry_checked := false }

/-- The coordinator's per-strategy position map (`self.positions`),
keyed by the two strategy names. -/
structure BotPositions where
  mean_reversion : Option PositionInfo
  trend_sniper : Option PositionInfo
deriving DecidableEq, Repr

/-- The position-management half of `TradingBot.run_iteration` (steps after
regime detection): the mean-reversion strategy is active iff the regime is
RANGING, the trend strategy iff TRENDING, and `_manage_position` runs for
both, each on its own frame.  Returns the updated position map together
with both per-strategy outcomes. -/
def run_iteration_positions {α β : Type} (mr_ops : StrategyOps α)
    (ts_ops : StrategyOps β) (regime : MarketRegime) (in_cooldown : Bool)
    (st : BotPositions) (df_mr : α) (df_ts : β) (current_price : ℚ)
    (size_mr size_ts : ℚ) (symbol : String) (id_mr id_ts : ℕ) :
    BotPositions × ManageResult × ManageResult :=
  let mr_active : Bool := decide (regime = MarketRegime.RANGING)
  let ts_active : Bool := decide (regime = MarketRegime.TRENDING)
  let r1 := manage_position mr_ops in_cooldown st.mean_reversion df_mr
      current_price mr_active size_mr symbol id_mr
  let r2 := manage_position ts_ops in_cooldown st.trend_sniper df_ts
      current_price ts_active size_ts symbol id_ts
  ({ mean_reversion := r1.new_position, trend_sniper := r2.new_position }, r1, r2)

/-- The `StrategyOps` record of the `MeanReversionStrategy` instance:
no `update_trailing_stop` is ever dispatched to it. -/
def mr_strategy_ops (cfg : MeanReversionConfig) : StrategyOps (List MeanRow) :=
  { check_exit := MeanReversion.check_exit_signal cfg
    check_entry := MeanReversion.check_entry_signal cfg
    update_trail := none }

/-- The `StrategyOps` record of the `TrendSniperStrategy` instance. -/
def ts_strategy_ops (cfg : TrendSniperConfig) : StrategyOps (List TrendBar) :=
  { check_exit := TrendSniper.check_exit_signal cfg
    check_entry := TrendSniper.check_entry_signal cfg
    update_trail := some (TrendSniper.update_trailing_stop cfg) }

/-! ## Trade persistence (`src/src/database.py`) -/

/-- `TradeSide` enum (`database.py`): stored in the `Trade.side` string
column via `.value`. -/
inductive TradeSide where
  | LONG
  | SHORT
deriving DecidableEq, Repr

/-- The `Trade` ORM row, restricted to the fields `close_trade` touches.
`side` is the string column compared against `TradeSide.LONG.value`. -/
structure Trade where
  side : String
  entry_price : ℚ
  size : ℚ
  exit_price : Option ℚ
  pnl_percent : Option ℚ
  pnl_absolute : Option ℚ
deriving DecidableEq, Repr

/-- `close_trade` (`database.py`), as the pure update it performs on the
row: record the exit price, then
`pnl_percent = (exit - entry)/entry` for LONG / `(entry - exit)/entry`
otherwise, and `pnl_absolute = pnl_percent * entry_price * size`.
(`exit_time` and the session plumbing are not modelled.) -/
def close_trade (trade : Trade) (exit_price : ℚ) : Trade :=
  let pnl_percent : ℚ :=
    if trade.side = "LONG" then
      (exit_price - trade.entry_price) / trade.entry_price
    else
      (trade.entry_price - exit_price) / trade.entry_price
  { trade with
      exit_price := some exit_price
      pnl_percent := some pnl_percent
      pnl_absolute := some (pnl_percent * trade.entry_price * trade.size) }

/-! ## Helper lemmas -/

theorem ltNA_iff (x : ℚ) (o : Option ℚ) :
    ltNA x o = true ↔ ∃ v, o = some v ∧ x < v := by
  cases o <;> simp [ltNA]

theorem gtNA_iff (x : ℚ) (o : Option ℚ) :
    gtNA x o = true ↔ ∃ v, o = some v ∧ v < x := by
  cases o <;> simp [gtNA]

theorem donchian_low_last_some_ne_nil {p : ℕ} {bars : List TrendBar} {v : ℚ}
    (h : donchian_low_last p bars = some v) : bars ≠ [] := by
  intro hnil
  subst hnil
  unfold donchian_low_last at h
  split at h
  · exact Option.noConfusion h
  · simp [lastWindow] at h

theorem donchian_high_last_some_ne_nil {p : ℕ} {bars : List TrendBar} {v : ℚ}
    (h : donchian_high_last p bars = some v) : bars ≠ [] := by
  intro hnil
  subst hnil
  unfold donchian_high_last at h
  split at h
  · exact Option.noConfusion h
  · simp [lastWindow] at h

/-! ## Claims -/

/-- **C1** (code bug).  The claim says an undefined trend-strength value
never causes a regime transition.  The NaN branch of `calculate_adx` indeed
preserves the stored value, but a series shorter than `adx_period + 1`
candles makes `calculate_adx` return the sentinel `0.0`, and in the
TRENDING state `0.0 < adx_range_return` forces a spurious transition to
RANGING.  Concretely (default thresholds 25/20): a fresh detector fed a
defined ADX of 30 moves to TRENDING; feeding it an empty frame then flips
it back to RANGING with `regime_changed = true`, where the claim requires
`(TRENDING, false)`. -/
theorem c1_short_series_forces_transition :
    (detect_regime
        { adx_period := 14, adx_trend_start := 25, adx_range_return := 20,
          cooldown_seconds := 900 }
        watchmanInit { len := 15, adx_last := some 30 } 0).1
      = (MarketRegime.TRENDING, true) ∧
    (detect_regime
        { adx_period := 14, adx_trend_start := 25, adx_range_return := 20,
          cooldown_seconds := 900 }
        (detect_regime
          { adx_period := 14, adx_trend_start := 25, adx_range_return := 20,
            cooldown_seconds := 900 }
          watchmanInit { len := 15, adx_last := some 30 } 0).2
        { len := 0, adx_last := none } 3600).1
      = (MarketRegime.RANGING, true) := by
  constructor <;> rfl

/-- **C9**.  `close_trade` records the exit price and computes
`pnl_percent = (exit − entry)/entry` for LONG, `(entry − exit)/entry` for
SHORT, and `pnl_absolute = pnl_percent · entry · size`; at entry 100 and
exit 110 this gives +10% for LONG and −10% for SHORT. -/
theorem c9_close_trade_pnl (trade : Trade) (exit_price : ℚ)
    (hE : 0 < trade.entry_price) :
    (close_trade trade exit_price).exit_price = some exit_price ∧
    (trade.side = "LONG" →
      (close_trade trade exit_price).pnl_percent =
        some ((exit_price - trade.entry_price) / trade.entry_price)) ∧
    (trade.side = "SHORT" →
      (close_trade trade exit_price).pnl_percent =
        some ((trade.entry_price - exit_price) / trade.entry_price)) ∧
    (∀ p, (close_trade trade exit_price).pnl_percent = some p →
      (close_trade trade exit_price).pnl_absolute =
        some (p * trade.entry_price * trade.size)) ∧
    (close_trade
        { side := "LONG", entry_price := 100, size := 1, exit_price := none,
          pnl_percent := none, pnl_absolute := none } 110).pnl_percent
      = some (1 / 10) ∧
    (close_trade
        { side := "SHORT", entry_price := 100, size := 1, exit_price := none,
          pnl_percent := none, pnl_absolute := none } 110).pnl_percent
      = some (-(1 / 10)) := by
  refine ⟨rfl, ?_, ?_, ?_, by norm_num [close_trade], ?_⟩
  · intro h
    simp [close_trade, h]
  · intro h
    have : trade.side ≠ "LONG" := by rw [h]; decide
    simp [close_trade, this]
  · intro p hp
    simp [close_trade] at hp ⊢
    split at hp <;> split <;> simp_all
  · have hs : ¬ ("SHORT" : String) = "LONG" := by decide
    norm_num [close_trade, hs]

/-- Witness for C9 at a concrete LONG trade with entry 100, exit 110. -/
theorem c9_close_trade_pnl_witness :
    (0 : ℚ) < 100 ∧
    (close_trade
        { side := "LONG", entry_price := 100, size := 2, exit_price := none,
          pnl_percent := none, pnl_absolute := none } 110).pnl_percent
      = some ((110 - 100) / 100) :=
  ⟨by norm_num,
   (c9_close_trade_pnl
      { side := "LONG", entry_price := 100, size := 2, exit_price := none,
        pnl_percent := none, pnl_absolute := none } 110 (by norm_num)).2.1 rfl⟩

/-- **C10**.  With an empty frame both strategies' `check_exit_signal`
returns `(False, "")` for every position and price — even one whose
stop-loss is already breached — so stop-loss enforcement is suspended
while data is missing. -/
theorem c10_empty_frame_suspends_exits (mcfg : MeanReversionConfig)
    (tcfg : TrendSniperConfig) (position : PositionInfo) (current_price : ℚ) :
    MeanReversion.check_exit_signal mcfg [] position current_price = (false, "") ∧
    TrendSniper.check_exit_signal tcfg [] position current_price = (false, "") := by
  constructor <;> rfl

/-- **C2**.  For a defined ADX value (enough candles, non-NaN last value),
one `detect_regime` step changes the regime iff the value crosses the
threshold relevant to the current state — `> adx_trend_start` from
RANGING, `< adx_range_return` from TRENDING — and any value in the closed
dead zone `[adx_range_return, adx_trend_start]` leaves the regime (and the
reported flag) unchanged, whatever the detector's history (the state `st`
is arbitrary, so the property holds after every interleaving). -/
theorem c2_hysteresis_characterization (cfg : WatchmanConfig)
    (st : WatchmanState) (df : AdxFrame) (now v : ℚ)
    (hlen : cfg.adx_period + 1 ≤ df.len) (hv : df.adx_last = some v) :
    ((detect_regime cfg st df now).1.2 = true ↔
      (st.current_regime = MarketRegime.RANGING ∧ cfg.adx_trend_start < v) ∨
      (st.current_regime = MarketRegime.TRENDING ∧ v < cfg.adx_range_return)) ∧
    (st.current_regime = MarketRegime.RANGING →
      ((detect_regime cfg st df now).1.1 = MarketRegime.TRENDING ↔
        cfg.adx_trend_start < v)) ∧
    (st.current_regime = MarketRegime.TRENDING →
      ((detect_regime cfg st df now).1.1 = MarketRegime.RANGING ↔
        v < cfg.adx_range_return)) ∧
    (cfg.adx_range_return ≤ v → v ≤ cfg.adx_trend_start →
      (detect_regime cfg st df now).1 = (st.current_regime, false) ∧
      (detect_regime cfg st df now).2.current_regime = st.current_regime) := by
  obtain ⟨cr, lc, la⟩ := st
  have h1 : ¬ (df.len < cfg.adx_period + 1) := Nat.not_lt.mpr hlen
  cases cr <;>
    simp only [detect_regime, calculate_adx, h1, if_false, hv,
      WatchmanState.current_regime] <;>
    split_ifs with h <;>
    simp_all

/-- Witness for C2: default thresholds 25/20, a TRENDING detector and the
dead-zone value 22 — the step reports `(TRENDING, false)`. -/
theorem c2_hysteresis_characterization_witness :
    (detect_regime
        { adx_period := 14, adx_trend_start := 25, adx_range_return := 20,
          cooldown_seconds := 900 }
        { current_regime := MarketRegime.TRENDING, last_regime_change := none,
          last_adx_value := 30 }
        { len := 20, adx_last := some 22 } 0).1
      = (MarketRegime.TRENDING, false) :=
  ((c2_hysteresis_characterization
      { adx_period := 14, adx_trend_start := 25, adx_range_return := 20,
        cooldown_seconds := 900 }
      { current_regime := MarketRegime.TRENDING, last_regime_change := none,
        last_adx_value := 30 }
      { len := 20, adx_last := some 22 } 0 22 (by norm_num) rfl).2.2.2
    (by norm_num) (by norm_num)).1

/-- **C8**.  `is_in_cooldown` is false while no regime change has been
recorded (so the freshly initialised detector is never in cooldown), and
with a recorded change at `t` it is true iff `now < t + cooldown_seconds`;
`cooldown_remaining` is never negative, is `0` whenever not in cooldown,
and inside the cooldown window equals the floor of the seconds left. -/
theorem c8_cooldown_characterization (cfg : WatchmanConfig)
    (st : WatchmanState) (now t : ℚ) :
    (st.last_regime_change = none → is_in_cooldown cfg st now = false) ∧
    (st.last_regime_change = some t →
      (is_in_cooldown cfg st now = true ↔ now < t + cfg.cooldown_seconds)) ∧
    0 ≤ cooldown_remaining cfg st now ∧
    (is_in_cooldown cfg st now = false → cooldown_remaining cfg st now = 0) ∧
    (st.last_regime_change = some t → now < t + cfg.cooldown_seconds →
      cooldown_remaining cfg st now = ⌊t + cfg.cooldown_seconds - now⌋) := by
  refine ⟨?_, ?_, ?_, ?_, ?_⟩
  · intro h
    simp [is_in_cooldown, h]
  · intro h
    simp [is_in_cooldown, h]
  · unfold cooldown_remaining
    split_ifs with h
    · cases hc : st.last_regime_change with
      | none => simp
      | some u => simp [le_max_left]
    · simp
  · intro h
    simp [cooldown_remaining, h]
  · intro h hlt
    have hcd : is_in_cooldown cfg st now = true := by
      simp [is_in_cooldown, h, hlt]
    have hq : (0 : ℚ) ≤ t + cfg.cooldown_seconds - now := by linarith
    have hfl : (0 : ℤ) ≤ ⌊t + cfg.cooldown_seconds - now⌋ := Int.floor_nonneg.mpr hq
    simp [cooldown_remaining, hcd, h, py_int, hq, max_eq_right hfl]

/-- Witness for C8: cooldown 900 s, last change at `t = 0`, `now = 100.5` —
the detector is in cooldown and 799 whole seconds remain. -/
theorem c8_cooldown_characterization_witness :
    cooldown_remaining
        { adx_period := 14, adx_trend_start := 25, adx_range_return := 20,
          cooldown_seconds := 900 }
        { current_regime := MarketRegime.TRENDING,
          last_regime_change := some 0, last_adx_value := 30 }
        (201 / 2)
      = ⌊(0 : ℚ) + 900 - 201 / 2⌋ :=
  (c8_cooldown_characterization
      { adx_period := 14, adx_trend_start := 25, adx_range_return := 20,
        cooldown_seconds := 900 }
      { current_regime := MarketRegime.TRENDING,
        last_regime_change := some 0, last_adx_value := 30 }
      (201 / 2) 0).2.2.2.2 rfl (by norm_num)

/-- **C6** (counterexample).  The claim asserts the `entry_price × 0.98`
fallback "whenever ATR is undefined", but the source applies that fallback
only to an *empty* frame; on a nonempty frame with NaN ATR it substitutes
`entry_price * 0.02` for the ATR and still scales by `atr_sl_multiplier`.
With the default multiplier 1.5, a one-row frame with NaN ATR and entry
100 yields a LONG stop of 97, not the claimed 98. -/
theorem c6_nan_atr_fallback_counterexample :
    MeanReversion.calculate_stop_loss
        { timeframe := "15m", bb_period := 20, bb_std_dev := 2,
          rsi_period := 14, rsi_oversold := 30, rsi_overbought := 70,
          atr_period := 14, atr_sl_multiplier := 3 / 2 }
        [{ close := 100, rsi := none, bb_lower := none, bb_upper := none,
           sma := none, atr := none }]
        SignalType.LONG 100
      = 97 ∧
    (97 : ℚ) ≠ 100 * (98 / 100) := by
  constructor
  · norm_num [MeanReversion.calculate_stop_loss]
  · norm_num

/-- **C6** (amended).  `calculate_stop_loss` returns
`entry ∓ ATR × atr_sl_multiplier` when the last row's ATR is defined;
when the frame is *empty* it falls back to `entry × 0.98` (LONG) /
`entry × 1.02` (SHORT); when the frame is nonempty but its last ATR is
NaN, the ATR is replaced by `entry × 0.02` and still scaled by the
multiplier, giving `entry × (1 ∓ 0.02 · atr_sl_multiplier)`. -/
theorem c6_stop_loss_characterization (cfg : MeanReversionConfig)
    (df : List MeanRow) (entry_price : ℚ) :
    (df = [] →
      MeanReversion.calculate_stop_loss cfg df SignalType.LONG entry_price
        = entry_price * (98 / 100) ∧
      MeanReversion.calculate_stop_loss cfg df SignalType.SHORT entry_price
        = entry_price * (102 / 100)) ∧
    (∀ latest, df.getLast? = some latest →
      (∀ a, latest.atr = some a →
        MeanReversion.calculate_stop_loss cfg df SignalType.LONG entry_price
          = entry_price - a * cfg.atr_sl_multiplier ∧
        MeanReversion.calculate_stop_loss cfg df SignalType.SHORT entry_price
          = entry_price + a * cfg.atr_sl_multiplier) ∧
      (latest.atr = none →
        MeanReversion.calculate_stop_loss cfg df SignalType.LONG entry_price
          = entry_price - entry_price * (2 / 100) * cfg.atr_sl_multiplier ∧
        MeanReversion.calculate_stop_loss cfg df SignalType.SHORT entry_price
          = entry_price + entry_price * (2 / 100) * cfg.atr_sl_multiplier)) := by
  constructor
  · intro h
    subst h
    constructor <;> rfl
  · intro latest hlast
    constructor
    · intro a ha
      constructor <;>
        simp [MeanReversion.calculate_stop_loss, hlast, ha]
    · intro ha
      constructor <;>
        simp [MeanReversion.calculate_stop_loss, hlast, ha]

/-- Witness for the amended C6: defined ATR 4, multiplier 1.5, entry 100 —
LONG stop 94, SHORT stop 106. -/
theorem c6_stop_loss_characterization_witness :
    MeanReversion.calculate_stop_loss
        { timeframe := "15m", bb_period := 20, bb_std_dev := 2,
          rsi_period := 14, rsi_oversold := 30, rsi_overbought := 70,
          atr_period := 14, atr_sl_multiplier := 3 / 2 }
        [{ close := 100, rsi := none, bb_lower := none, bb_upper := none,
           sma := none, atr := some 4 }]
        SignalType.LONG 100
      = 100 - 4 * (3 / 2) :=
  (((c6_stop_loss_characterization
      { timeframe := "15m", bb_period := 20, bb_std_dev := 2,
        rsi_period := 14, rsi_oversold := 30, rsi_overbought := 70,
        atr_period := 14, atr_sl_multiplier := 3 / 2 }
      [{ close := 100, rsi := none, bb_lower := none, bb_upper := none,
         sma := none, atr := some 4 }] 100).2
    { close := 100, rsi := none, bb_lower := none, bb_upper := none,
      sma := none, atr := some 4 } rfl).1 4 rfl).1

/-- **C5**.  For any frame with a last row: if the RSI there is NaN no
signal fires; with a defined RSI the result is a LONG signal iff
`close < bb_lower` (band defined) and `rsi < rsi_oversold`, and a SHORT
signal iff `close > bb_upper` and `rsi > rsi_overbought` *and the LONG
condition fails* — the LONG check runs first, so LONG wins whenever both
conditions hold, and the single `Option Signal` return value makes more
than one signal per call impossible. -/
theorem c5_mean_reversion_entry_characterization (cfg : MeanReversionConfig)
    (df : List MeanRow) (latest : MeanRow) (hlast : df.getLast? = some latest) :
    (latest.rsi = none → MeanReversion.check_entry_signal cfg df = none) ∧
    (∀ rsi, latest.rsi = some rsi →
      ((∃ sig, MeanReversion.check_entry_signal cfg df = some sig ∧
          sig.signal_type = SignalType.LONG) ↔
        ((∃ l, latest.bb_lower = some l ∧ latest.close < l) ∧
          rsi < cfg.rsi_oversold)) ∧
      ((∃ sig, MeanReversion.check_entry_signal cfg df = some sig ∧
          sig.signal_type = SignalType.SHORT) ↔
        (((∃ u, latest.bb_upper = some u ∧ u < latest.close) ∧
            cfg.rsi_overbought < rsi) ∧
          ¬ ((∃ l, latest.bb_lower = some l ∧ latest.close < l) ∧
              rsi < cfg.rsi_oversold)))) := by
  constructor
  · intro h
    simp [MeanReversion.check_entry_signal, hlast, h]
  · intro rsi hrsi
    have hL : (ltNA latest.close latest.bb_lower = true ∧ rsi < cfg.rsi_oversold) ↔
        ((∃ l, latest.bb_lower = some l ∧ latest.close < l) ∧
          rsi < cfg.rsi_oversold) := by
      rw [ltNA_iff]
    have hS : (gtNA latest.close latest.bb_upper = true ∧ cfg.rsi_overbought < rsi) ↔
        ((∃ u, latest.bb_upper = some u ∧ u < latest.close) ∧
          cfg.rsi_overbought < rsi) := by
      rw [gtNA_iff]
    by_cases h1 : ltNA latest.close latest.bb_lower = true ∧ rsi < cfg.rsi_oversold
    · constructor
      · simp [MeanReversion.check_entry_signal, hlast, hrsi, h1, hL.mp h1]
      · simp only [MeanReversion.check_entry_signal, hlast, hrsi, if_pos h1]
        constructor
        · rintro ⟨sig, hsig, hty⟩
          rw [Option.some.injEq] at hsig
          subst hsig
          simp at hty
        · rintro ⟨-, hnot⟩
          exact absurd (hL.mp h1) hnot
    · by_cases h2 : gtNA latest.close latest.bb_upper = true ∧ cfg.rsi_overbought < rsi
      · constructor
        · simp only [MeanReversion.check_entry_signal, hlast, hrsi, if_neg h1, if_pos h2]
          constructor
          · rintro ⟨sig, hsig, hty⟩
            rw [Option.some.injEq] at hsig
            subst hsig
            simp at hty
          · intro hcond
            exact absurd (hL.mpr hcond) h1
        · simp only [MeanReversion.check_entry_signal, hlast, hrsi, if_neg h1, if_pos h2]
          constructor
          · intro _
            exact ⟨hS.mp h2, fun hcond => h1 (hL.mpr hcond)⟩
          · intro _
            exact ⟨{ signal_type := SignalType.SHORT
                     entry_price := latest.close
                     stop_loss := MeanReversion.calculate_stop_loss cfg df
                       SignalType.SHORT latest.close
                     reason := "Overbought Condition" }, rfl, rfl⟩
      · constructor
        · simp only [MeanReversion.check_entry_signal, hlast, hrsi, if_neg h1, if_neg h2]
          constructor
          · rintro ⟨sig, hsig, -⟩
            exact Option.noConfusion hsig
          · intro hcond
            exact absurd (hL.mpr hcond) h1
        · simp only [MeanReversion.check_entry_signal, hlast, hrsi, if_neg h1, if_neg h2]
          constructor
          · rintro ⟨sig, hsig, -⟩
            exact Option.noConfusion hsig
          · rintro ⟨hcond, -⟩
            exact absurd (hS.mpr hcond) h2

/-- Witness for C5: close 90 below the lower band 95, RSI 25 below the
oversold cutoff 30 — a LONG signal fires (spec §8 scenario). -/
theorem c5_mean_reversion_entry_characterization_witness :
    ∃ sig, MeanReversion.check_entry_signal
        { timeframe := "15m", bb_period := 20, bb_std_dev := 2,
          rsi_period := 14, rsi_oversold := 30, rsi_overbought := 70,
          atr_period := 14, atr_sl_multiplier := 3 / 2 }
        [{ close := 90, rsi := some 25, bb_lower := some 95,
           bb_upper := some 105, sma := some 100, atr := some 2 }]
      = some sig ∧ sig.signal_type = SignalType.LONG :=
  (((c5_mean_reversion_entry_characterization
      { timeframe := "15m", bb_period := 20, bb_std_dev := 2,
        rsi_period := 14, rsi_oversold := 30, rsi_overbought := 70,
        atr_period := 14, atr_sl_multiplier := 3 / 2 }
      [{ close := 90, rsi := some 25, bb_lower := some 95,
         bb_upper := some 105, sma := some 100, atr := some 2 }]
      { close := 90, rsi := some 25, bb_lower := some 95,
        bb_upper := some 105, sma := some 100, atr := some 2 } rfl).2
    25 rfl).1).mpr ⟨⟨95, rfl, by norm_num⟩, by norm_num⟩

/-- **C3**.  `update_trailing_stop` is a monotonic ratchet: for a LONG
position it returns `max(donchian_low, stop)` when the channel is defined
and never decreases the stop; for a SHORT position it returns
`min(donchian_high, stop)` and never increases it; an empty frame or an
undefined channel leaves the stop unchanged. -/
theorem c3_trailing_stop_ratchet (cfg : TrendSniperConfig) (df : List TrendBar)
    (position : PositionInfo) :
    (position.side = "LONG" →
      (∀ v, donchian_low_last cfg.donchian_period df = some v →
        TrendSniper.update_trailing_stop cfg df position
          = max v position.stop_loss) ∧
      position.stop_loss ≤ TrendSniper.update_trailing_stop cfg df position) ∧
    (position.side = "SHORT" →
      (∀ v, donchian_high_last cfg.donchian_period df = some v →
        TrendSniper.update_trailing_stop cfg df position
          = min v position.stop_loss) ∧
      TrendSniper.update_trailing_stop cfg df position ≤ position.stop_loss) ∧
    (df = [] →
      TrendSniper.update_trailing_stop cfg df position = position.stop_loss) ∧
    (position.side = "LONG" →
      donchian_low_last cfg.donchian_period df = none →
      TrendSniper.update_trailing_stop cfg df position = position.stop_loss) ∧
    (position.side ≠ "LONG" →
      donchian_high_last cfg.donchian_period df = none →
      TrendSniper.update_trailing_stop cfg df position = position.stop_loss) := by
  cases df with
  | nil =>
      refine ⟨?_, ?_, fun _ => rfl, fun _ _ => rfl, fun _ _ => rfl⟩
      · intro hside
        exact ⟨fun v hv => absurd rfl (donchian_low_last_some_ne_nil hv),
               le_refl _⟩
      · intro hside
        exact ⟨fun v hv => absurd rfl (donchian_high_last_some_ne_nil hv),
               le_refl _⟩
  | cons b bs =>
      have hne : (b :: bs).isEmpty = false := rfl
      refine ⟨?_, ?_, ?_, ?_, ?_⟩
      · intro hside
        constructor
        · intro v hv
          simp [TrendSniper.update_trailing_stop, hne, hside, hv]
        · cases hdl : donchian_low_last cfg.donchian_period (b :: bs) with
          | none => simp [TrendSniper.update_trailing_stop, hne, hside, hdl]
          | some v =>
              simp only [TrendSniper.update_trailing_stop, hne, hside,
                Bool.false_eq_true, if_false, if_pos rfl, hdl]
              exact le_max_right v position.stop_loss
      · intro hside
        have hnl : ¬ position.side = "LONG" := by rw [hside]; decide
        constructor
        · intro v hv
          simp [TrendSniper.update_trailing_stop, hne, hnl, hv]
        · cases hdh : donchian_high_last cfg.donchian_period (b :: bs) with
          | none => simp [TrendSniper.update_trailing_stop, hne, hnl, hdh]
          | some v =>
              simp only [TrendSniper.update_trailing_stop, hne, hnl,
                Bool.false_eq_true, if_false, hdh]
              exact min_le_right v position.stop_loss
      · intro h
        exact absurd h (List.cons_ne_nil b bs)
      · intro hside hdl
        simp [TrendSniper.update_trailing_stop, hne, hside, hdl]
      · intro hside hdh
        simp [TrendSniper.update_trailing_stop, hne, hside, hdh]

/-- Witness for C3: a LONG position with stop 50, one-bar frame with
channel low 48 (period 1) — the stop stays at `max 48 50 = 50`. -/
theorem c3_trailing_stop_ratchet_witness :
    TrendSniper.update_trailing_stop
        { timeframe := "1h", donchian_period := 1, ema_period := 200 }
        [{ high := 60, low := 48, close := 55, ema := none }]
        { trade_id := 1, symbol := "BTC/USDT", side := "LONG",
          entry_price := 52, size := 1, stop_loss := 50 }
      = max 48 50 :=
  ((c3_trailing_stop_ratchet
      { timeframe := "1h", donchian_period := 1, ema_period := 200 }
      [{ high := 60, low := 48, close := 55, ema := none }]
      { trade_id := 1, symbol := "BTC/USDT", side := "LONG",
        entry_price := 52, size := 1, stop_loss := 50 }).1 rfl).1 48 rfl

/-- **C7**.  The trend entry check returns no signal when the frame has
fewer than `ema_period + 1` bars, or the last EMA or the one-shifted
(prior-bar) channel is undefined; otherwise a LONG signal fires iff the
close exceeds both the *prior-bar* channel high (`prev_donchian_high`,
i.e. the rolling extreme of the window that excludes the current bar) and
the EMA, and a SHORT signal fires iff the close is below both the
prior-bar channel low and the EMA (the EMA filter makes the two
conditions mutually exclusive, so evaluation order does not matter). -/
theorem c7_trend_entry_characterization (cfg : TrendSniperConfig)
    (df : List TrendBar) :
    (df.length < cfg.ema_period + 1 →
      TrendSniper.check_entry_signal cfg df = none) ∧
    (∀ latest, df.getLast? = some latest →
      (latest.ema = none ∨ prev_donchian_high cfg.donchian_period df = none) →
      TrendSniper.check_entry_signal cfg df = none) ∧
    (∀ latest e H L, df.getLast? = some latest →
      latest.ema = some e →
      prev_donchian_high cfg.donchian_period df = some H →
      prev_donchian_low cfg.donchian_period df = some L →
      cfg.ema_period + 1 ≤ df.length →
      ((∃ sig, TrendSniper.check_entry_signal cfg df = some sig ∧
          sig.signal_type = SignalType.LONG) ↔
        (H < latest.close ∧ e < latest.close)) ∧
      ((∃ sig, TrendSniper.check_entry_signal cfg df = some sig ∧
          sig.signal_type = SignalType.SHORT) ↔
        (latest.close < L ∧ latest.close < e))) := by
  refine ⟨?_, ?_, ?_⟩
  · intro hlen
    unfold TrendSniper.check_entry_signal
    rw [if_pos (Or.inr hlen)]
  · intro latest hlast hor
    unfold TrendSniper.check_entry_signal
    by_cases hcut : df.isEmpty = true ∨ df.length < cfg.ema_period + 1
    · rw [if_pos hcut]
    · rw [if_neg hcut, hlast]
      rcases hor with h | h <;> simp [h]
  · intro latest e H L hlast he hH hL hlen
    have hnempty : df ≠ [] := by
      intro h
      subst h
      exact Option.noConfusion hlast
    have h1 : df.isEmpty = false := by
      cases df with
      | nil => exact absurd rfl hnempty
      | cons b bs => rfl
    have hcut : ¬ (df.isEmpty = true ∨ df.length < cfg.ema_period + 1) := by
      rw [h1]
      simp [Nat.not_lt.mpr hlen]
    have hdef : ¬ (latest.ema.isNone = true ∨
        (prev_donchian_high cfg.donchian_period df).isNone = true) := by
      rw [he, hH]
      simp
    unfold TrendSniper.check_entry_signal
    rw [if_neg hcut, hlast]
    simp only [he, hH, hL, Option.isNone_some, Bool.false_eq_true, or_self,
      if_false, gtNA, ltNA, decide_eq_true_eq]
    by_cases hlong : H < latest.close ∧ e < latest.close
    · rw [if_pos hlong]
      constructor
      · simp [hlong]
      · constructor
        · rintro ⟨sig, hsig, hty⟩
          rw [Option.some.injEq] at hsig
          subst hsig
          simp at hty
        · rintro ⟨-, hlt⟩
          exact absurd hlong (by rintro ⟨-, h⟩; exact absurd hlt (not_lt.mpr h.le))
    · rw [if_neg hlong]
      by_cases hshort : latest.close < L ∧ latest.close < e
      · rw [if_pos hshort]
        constructor
        · constructor
          · rintro ⟨sig, hsig, hty⟩
            rw [Option.some.injEq] at hsig
            subst hsig
            simp at hty
          · intro h
            exact absurd h hlong
        · simp [hshort]
      · rw [if_neg hshort]
        constructor <;> constructor
        · rintro ⟨sig, hsig, -⟩
          exact Option.noConfusion hsig
        · intro h
          exact absurd h hlong
        · rintro ⟨sig, hsig, -⟩
          exact Option.noConfusion hsig
        · intro h
          exact absurd h hshort

/-- Witness for C7: period-2 channel over three bars, EMA 9 at the last
bar, close 20 above the prior-bar channel high `max(10, 11) = 11` — a
LONG breakout signal fires. -/
theorem c7_trend_entry_characterization_witness :
    ∃ sig, TrendSniper.check_entry_signal
        { timeframe := "1h", donchian_period := 2, ema_period := 2 }
        [{ high := 10, low := 5, close := 7, ema := none },
         { high := 11, low := 6, close := 8, ema := none },
         { high := 12, low := 7, close := 20, ema := some 9 }]
      = some sig ∧ sig.signal_type = SignalType.LONG :=
  (((c7_trend_entry_characterization
      { timeframe := "1h", donchian_period := 2, ema_period := 2 }
      [{ high := 10, low := 5, close := 7, ema := none },
       { high := 11, low := 6, close := 8, ema := none },
       { high := 12, low := 7, close := 20, ema := some 9 }]).2.2
    { high := 12, low := 7, close := 20, ema := some 9 } 9 11 5
    rfl rfl (by norm_num [prev_donchian_high, donchian_high_last, lastWindow])
    (by norm_num [prev_donchian_low, donchian_low_last, lastWindow])
    (by norm_num)).1).mpr ⟨by norm_num, by norm_num⟩

/-- **C4**.  In every coordinator iteration, each strategy with an open
position gets its exit check evaluated — whatever its `is_active` flag and
the cooldown state — and that check receives the position with the stop
value from *before* this iteration's trailing update; an exit happens iff
`check_exit` said so, in which case no trailing update runs; when no exit
fired, the trailing stop is recomputed exactly for the strategy that has
`update_trailing_stop` (the trend sniper).  A strategy without a position
is considered for entry iff it is active and the detector is not in
cooldown.  `run_iteration_positions` feeds both strategies through
`_manage_position`, the mean-reversion one active iff the regime is
RANGING and the trend one iff TRENDING. -/
theorem c4_coordinator_invariant {α : Type} (ops : StrategyOps α)
    (in_cooldown active : Bool) (position : PositionInfo) (df : α)
    (current_price position_size : ℚ) (symbol : String) (trade_id : ℕ) :
    ((manage_position ops in_cooldown (some position) df current_price active
        position_size symbol trade_id).exit_check_stop
      = some position.stop_loss) ∧
    ((manage_position ops in_cooldown (some position) df current_price active
        position_size symbol trade_id).exited = true ↔
      (ops.check_exit df position current_price).1 = true) ∧
    ((ops.check_exit df position current_price).1 = true →
      (manage_position ops in_cooldown (some position) df current_price active
          position_size symbol trade_id).trail_called = false ∧
      (manage_position ops in_cooldown (some position) df current_price active
          position_size symbol trade_id).new_position = none) ∧
    ((ops.check_exit df position current_price).1 = false →
      ∀ f, ops.update_trail = some f →
        (manage_position ops in_cooldown (some position) df current_price
            active position_size symbol trade_id).trail_called = true ∧
        (manage_position ops in_cooldown (some position) df current_price
            active position_size symbol trade_id).new_position
          = some { position with stop_loss := f df position }) ∧
    ((manage_position ops in_cooldown none df current_price active
        position_size symbol trade_id).entry_checked
      = (active && !in_cooldown)) ∧
    (∀ (β γ : Type) (mr_ops : StrategyOps β) (ts_ops : StrategyOps γ)
        (regime : MarketRegime) (st : BotPositions) (df_mr : β) (df_ts : γ)
        (size_mr size_ts : ℚ) (id_mr id_ts : ℕ),
      (run_iteration_positions mr_ops ts_ops regime in_cooldown st df_mr df_ts
          current_price size_mr size_ts symbol id_mr id_ts).2.1
        = manage_position mr_ops in_cooldown st.mean_reversion df_mr
            current_price (decide (regime = MarketRegime.RANGING)) size_mr
            symbol id_mr ∧
      (run_iteration_positions mr_ops ts_ops regime in_cooldown st df_mr df_ts
          current_price size_mr size_ts symbol id_mr id_ts).2.2
        = manage_position ts_ops in_cooldown st.trend_sniper df_ts
            current_price (decide (regime = MarketRegime.TRENDING)) size_ts
            symbol id_ts) := by
  refine ⟨?_, ?_, ?_, ?_, ?_, fun _ _ _ _ _ _ _ _ _ _ _ _ => ⟨rfl, rfl⟩⟩
  · unfold manage_position
    cases hex : (ops.check_exit df position current_price).1
    · cases hu : ops.update_trail <;> simp [hex, hu]
    · simp [hex]
  · unfold manage_position
    cases hex : (ops.check_exit df position current_price).1
    · cases hu : ops.update_trail <;> simp [hex, hu]
    · simp [hex]
  · intro hex
    unfold manage_position
    simp [hex]
  · intro hex f hu
    unfold manage_position
    simp [hex, hu]
  · unfold manage_position
    cases hact : active
    · simp
    · cases hcd : in_cooldown
      · cases hent : ops.check_entry df
        · simp [hent]
        · by_cases hsz : position_size ≤ 0 <;> simp [hent, hsz]
      · simp

/-- Witness for C4: a strategy with a trailing-stop method, a stale check
(`check_exit` always false), an open LONG position with stop 50 on an
inactive strategy — the exit check still ran with stop 50 and the trail
update produced stop 51. -/
theorem c4_coordinator_invariant_witness :
    ((manage_position
        { check_exit := fun (_ : Unit) _ _ => (false, ""),
          check_entry := fun _ => none,
          update_trail := some (fun _ p => p.stop_loss + 1) }
        false (some { trade_id := 1, symbol := "BTC/USDT", side := "LONG",
                      entry_price := 100, size := 1, stop_loss := 50 })
        () 99 false 1 "BTC/USDT" 1).exit_check_stop = some 50) ∧
    ((manage_position
        { check_exit := fun (_ : Unit) _ _ => (false, ""),
          check_entry := fun _ => none,
          update_trail := some (fun _ p => p.stop_loss + 1) }
        false (some { trade_id := 1, symbol := "BTC/USDT", side := "LONG",
                      entry_price := 100, size := 1, stop_loss := 50 })
        () 99 false 1 "BTC/USDT" 1).new_position
      = some { trade_id := 1, symbol := "BTC/USDT", side := "LONG",
               entry_price := 100, size := 1, stop_loss := 50 + 1 }) :=
  ⟨(c4_coordinator_invariant
      { check_exit := fun (_ : Unit) _ _ => (false, ""),
        check_entry := fun _ => none,
        update_trail := some (fun _ p => p.stop_loss + 1) }
      false false
      { trade_id := 1, symbol := "BTC/USDT", side := "LONG",
        entry_price := 100, size := 1, stop_loss := 50 }
      () 99 1 "BTC/USDT" 1).1,
   ((c4_coordinator_invariant
      { check_exit := fun (_ : Unit) _ _ => (false, ""),
        check_entry := fun _ => none,
        update_trail := some (fun _ p => p.stop_loss + 1) }
      false false
      { trade_id := 1, symbol := "BTC/USDT", side := "LONG",
        entry_price := 100, size := 1, stop_loss := 50 }
      () 99 1 "BTC/USDT" 1).2.2.2.1 rfl (fun _ p => p.stop_loss + 1) rfl).2⟩
